import Mathlib

/-!
Verification of the STM32 FreeRTOS I2C LCD driver (LCD_I2C.c / LCD_I2C.h).

Shallow embedding of the HD44780-over-PCF8574 LCD driver.  Bytes are
modelled as `Nat` reduced modulo 256 where the C code stores them into
8-bit objects.  Each driver operation is modelled as a function producing
the sequence of externally visible events it performs: I2C transmissions
(`HAL_I2C_Master_Transmit` calls) and delays (`HAL_Delay` calls).  The
bus collaborator is modelled as an oracle assigning a HAL status to every
transmission; the C driver discards that status (all driver functions
return `void`), which the embedding reproduces faithfully.
-/

/-! Constants from src/Core/Inc/LCD_I2C.h -/

def SLAVE_ADDRESS_LCD : Nat := 0x4E

def LCD_BUFFER_SIZE : Nat := 4

def UPPER_BITS_MASK : Nat := 0xF0

def TIMEOUT : Nat := 100

def EN_BIT_MASK : Nat := 0x0C

def RS_EN_OFF_MASK : Nat := 0x08

def RS_EN_ON_MASK : Nat := 0x0D

def RS_BIT_MASK : Nat := 0x09

def LCD_CURSOR_ROW_FIRST : Nat := 0x80

def LCD_CURSOR_ROW_SECOND : Nat := 0xC0

def LCD_CLEAR_ROW_LENGTH : Nat := 16

def DELAY_50MS : Nat := 40

def DELAY_5MS : Nat := 5

def DELAY_1MS : Nat := 1

def DELAY_10MS : Nat := 10

def LCD_INIT_CMD_8BIT : Nat := 0x30

def LCD_INIT_CMD_4BIT : Nat := 0x20

def LCD_INIT_CMD_FUNCTION_SET : Nat := 0x28

def LCD_INIT_CMD_DISPLAY_OFF : Nat := 0x08

def LCD_INIT_CMD_CLEAR_DISPLAY : Nat := 0x01

def LCD_INIT_CMD_ENTRY_MODE_SET : Nat := 0x06

def LCD_INIT_CMD_DISPLAY_ON : Nat := 0x0C

def LCD_MOVE_RIGHT : Nat := 0x1C

def LCD_MOVE_LEFT : Nat := 0x18

/-! The external interface model. -/

/-- One call to `HAL_I2C_Master_Transmit`: target address, byte buffer,
timeout in milliseconds. -/
structure Transmission where
  addr : Nat
  bytes : List Nat
  timeout : Nat
deriving DecidableEq

/-- An externally visible action of the driver: an I2C transmission or a
blocking delay (`HAL_Delay ms`). -/
inductive Event where
  | transmit (t : Transmission)
  | delay (ms : Nat)
deriving DecidableEq

/-- The HAL status codes that `HAL_I2C_Master_Transmit` can return. -/
inductive HAL_StatusTypeDef where
  | HAL_OK
  | HAL_ERROR
  | HAL_BUSY
  | HAL_TIMEOUT
deriving DecidableEq

/-- The bus collaborator: assigns an outcome to every transmission
(failure injection model). -/
def Bus : Type := Transmission → HAL_StatusTypeDef

/-- A bus on which every transmission succeeds. -/
def busOK : Bus := fun _ => HAL_StatusTypeDef.HAL_OK

/-- A bus on which every transmission fails. -/
def busFAIL : Bus := fun _ => HAL_StatusTypeDef.HAL_ERROR

/-! The driver operations (from src/Core/Src/LCD_I2C.c).

Each `*_run` function mirrors one C function.  The C functions all return
`void` and ignore the status returned by `HAL_I2C_Master_Transmit`; hence
each model returns `Unit × List Event`: the value returned to the caller
(always `()`) together with the trace of events performed. -/

/-- `LCD_SEND_CMD(char cmd)`: splits `cmd` into upper and lower nibbles,
builds the 4-byte command frame (RS=0) and performs one transmission.
The HAL status is discarded, as in the C source. -/
def LCD_SEND_CMD_run (bus : Bus) (cmd : Nat) : Unit × List Event :=
  let c := cmd % 256
  let upper_data := c &&& UPPER_BITS_MASK
  let lower_data := (c <<< LCD_BUFFER_SIZE) &&& UPPER_BITS_MASK
  let lcd_Buffer : List Nat :=
    [upper_data ||| EN_BIT_MASK,      -- en=1, rs=0
     upper_data ||| RS_EN_OFF_MASK,   -- en=0, rs=0
     lower_data ||| EN_BIT_MASK,      -- en=1, rs=0
     lower_data ||| RS_EN_OFF_MASK]   -- en=0, rs=0
  let tx : Transmission := ⟨SLAVE_ADDRESS_LCD, lcd_Buffer, TIMEOUT⟩
  let _ := bus tx   -- HAL_I2C_Master_Transmit: status ignored by the C code
  ((), [Event.transmit tx])

/-- `LCD_SEND_DATA(char data)`: same nibble framing with RS=1.
The HAL status is discarded, as in the C source. -/
def LCD_SEND_DATA_run (bus : Bus) (data : Nat) : Unit × List Event :=
  let d := data % 256
  let upper_data := d &&& UPPER_BITS_MASK
  let lower_data := (d <<< LCD_BUFFER_SIZE) &&& UPPER_BITS_MASK
  let lcd_Buffer : List Nat :=
    [upper_data ||| RS_EN_ON_MASK,    -- en=1, rs=1
     upper_data ||| RS_BIT_MASK,      -- en=0, rs=1
     lower_data ||| RS_EN_ON_MASK,    -- en=1, rs=1
     lower_data ||| RS_BIT_MASK]      -- en=0, rs=1
  let tx : Transmission := ⟨SLAVE_ADDRESS_LCD, lcd_Buffer, TIMEOUT⟩
  let _ := bus tx   -- HAL_I2C_Master_Transmit: status ignored by the C code
  ((), [Event.transmit tx])

/-- The loop body of `LCD_CLEAR`: `n` iterations of `LCD_SEND_DATA(0x20)`
(the space character). -/
def clearLoopRun (bus : Bus) : Nat → List Event
  | 0 => []
  | n + 1 => (LCD_SEND_DATA_run bus 0x20).2 ++ clearLoopRun bus n

/-- `LCD_CLEAR()`: cursor to the start of row 1, then
`LCD_CLEAR_ROW_LENGTH` data writes of the space character. -/
def LCD_CLEAR_run (bus : Bus) : Unit × List Event :=
  ((), (LCD_SEND_CMD_run bus LCD_CURSOR_ROW_FIRST).2
        ++ clearLoopRun bus LCD_CLEAR_ROW_LENGTH)

/-- `LCD_SET_CURSOR(int row, int col)`: the `switch` ORs the row base
address into `col` for rows 0 and 1 and falls through otherwise; the
result is passed to `LCD_SEND_CMD`, which takes a `char`, so it is
reduced modulo 256 at the call. -/
def LCD_SET_CURSOR_run (bus : Bus) (row col : Int) : Unit × List Event :=
  let col :=
    if row = 0 then Int.lor col (LCD_CURSOR_ROW_FIRST : Int)
    else if row = 1 then Int.lor col (LCD_CURSOR_ROW_SECOND : Int)
    else col
  LCD_SEND_CMD_run bus (col % 256).toNat

/-- `LCD_INIT()`: the fixed power-on sequence of delays and commands. -/
def LCD_INIT_run (bus : Bus) : Unit × List Event :=
  ((), [Event.delay DELAY_50MS]
        ++ (LCD_SEND_CMD_run bus LCD_INIT_CMD_8BIT).2
        ++ [Event.delay DELAY_5MS]
        ++ (LCD_SEND_CMD_run bus LCD_INIT_CMD_8BIT).2
        ++ [Event.delay DELAY_1MS]
        ++ (LCD_SEND_CMD_run bus LCD_INIT_CMD_8BIT).2
        ++ [Event.delay DELAY_10MS]
        ++ (LCD_SEND_CMD_run bus LCD_INIT_CMD_4BIT).2
        ++ [Event.delay DELAY_10MS]
        ++ (LCD_SEND_CMD_run bus LCD_INIT_CMD_FUNCTION_SET).2
        ++ [Event.delay DELAY_1MS]
        ++ (LCD_SEND_CMD_run bus LCD_INIT_CMD_DISPLAY_OFF).2
        ++ [Event.delay DELAY_1MS]
        ++ (LCD_SEND_CMD_run bus LCD_INIT_CMD_CLEAR_DISPLAY).2
        ++ [Event.delay DELAY_1MS]
        ++ [Event.delay DELAY_1MS]
        ++ (LCD_SEND_CMD_run bus LCD_INIT_CMD_ENTRY_MODE_SET).2
        ++ [Event.delay DELAY_1MS]
        ++ (LCD_SEND_CMD_run bus LCD_INIT_CMD_DISPLAY_ON).2)

/-- `LCD_SEND_STRING(char *str)`: `while (*str) LCD_SEND_DATA(*str++);`.
The argument models the bytes in memory starting at `str`; the loop stops
at the first zero byte (the C null terminator). -/
def LCD_SEND_STRING_run (bus : Bus) : List Nat → Unit × List Event
  | [] => ((), [])
  | c :: rest =>
    if c = 0 then ((), [])
    else ((), (LCD_SEND_DATA_run bus c).2 ++ (LCD_SEND_STRING_run bus rest).2)

/-- `LCD_SCROLL_LEFT()`: sends the shift-display-left command. -/
def LCD_SCROLL_LEFT_run (bus : Bus) : Unit × List Event :=
  LCD_SEND_CMD_run bus LCD_MOVE_LEFT

/-- `LCD_SCROLL_RIGHT()`: sends the shift-display-right command. -/
def LCD_SCROLL_RIGHT_run (bus : Bus) : Unit × List Event :=
  LCD_SEND_CMD_run bus LCD_MOVE_RIGHT

/-! Pure event traces.

The trace of each operation on the all-success bus.  (A theorem below
shows the trace, like the returned value, does not depend on the bus at
all: the C code never inspects the HAL status.) -/

def LCD_SEND_CMD (cmd : Nat) : List Event := (LCD_SEND_CMD_run busOK cmd).2

def LCD_SEND_DATA (data : Nat) : List Event := (LCD_SEND_DATA_run busOK data).2

def LCD_CLEAR : List Event := (LCD_CLEAR_run busOK).2

def LCD_SET_CURSOR (row col : Int) : List Event := (LCD_SET_CURSOR_run busOK row col).2

def LCD_INIT : List Event := (LCD_INIT_run busOK).2

def LCD_SEND_STRING (str : List Nat) : List Event := (LCD_SEND_STRING_run busOK str).2

def LCD_SCROLL_LEFT : List Event := (LCD_SCROLL_LEFT_run busOK).2

def LCD_SCROLL_RIGHT : List Event := (LCD_SCROLL_RIGHT_run busOK).2

/-! Observation helpers. -/

/-- The byte an HD44780 receives from a 4-byte nibble frame: high nibble of
byte 0 joined with high nibble of byte 2. -/
def decodeFrame (bytes : List Nat) : Nat :=
  match bytes with
  | [hi, _, lo, _] => (hi &&& 0xF0) ||| ((lo &&& 0xF0) >>> 4)
  | _ => 0

/-- The payload bytes delivered by the transmissions of a trace, in order. -/
def payloadsOf (tr : List Event) : List Nat :=
  tr.filterMap fun e =>
    match e with
    | Event.transmit t => some (decodeFrame t.bytes)
    | Event.delay _ => none

/-- The delay durations of a trace, in order. -/
def delaysOf (tr : List Event) : List Nat :=
  tr.filterMap fun e =>
    match e with
    | Event.delay d => some d
    | Event.transmit _ => none

/-- The byte buffers transmitted in a trace, in order. -/
def sentBytes (tr : List Event) : List (List Nat) :=
  tr.filterMap fun e =>
    match e with
    | Event.transmit t => some t.bytes
    | Event.delay _ => none

/-- The 4-byte command frame (RS=0) carrying payload byte `b`. -/
def cmdFrameBytes (b : Nat) : List Nat :=
  [(b &&& UPPER_BITS_MASK) ||| EN_BIT_MASK,
   (b &&& UPPER_BITS_MASK) ||| RS_EN_OFF_MASK,
   ((b <<< LCD_BUFFER_SIZE) &&& UPPER_BITS_MASK) ||| EN_BIT_MASK,
   ((b <<< LCD_BUFFER_SIZE) &&& UPPER_BITS_MASK) ||| RS_EN_OFF_MASK]

/-- The 4-byte data frame (RS=1) carrying payload byte `b`. -/
def dataFrameBytes (b : Nat) : List Nat :=
  [(b &&& UPPER_BITS_MASK) ||| RS_EN_ON_MASK,
   (b &&& UPPER_BITS_MASK) ||| RS_BIT_MASK,
   ((b <<< LCD_BUFFER_SIZE) &&& UPPER_BITS_MASK) ||| RS_EN_ON_MASK,
   ((b <<< LCD_BUFFER_SIZE) &&& UPPER_BITS_MASK) ||| RS_BIT_MASK]

/-- A transmission is well-formed when it goes to the fixed device address
with the fixed timeout, is exactly 4 bytes long, and its bytes are the
command frame or the data frame of its own decoded payload byte, that is:
upper nibble with EN=1, upper nibble with EN=0, lower nibble with EN=1,
lower nibble with EN=0, all four carrying the same RS setting. -/
def goodFrame (t : Transmission) : Prop :=
  t.addr = SLAVE_ADDRESS_LCD ∧ t.timeout = TIMEOUT ∧ t.bytes.length = LCD_BUFFER_SIZE ∧
  (t.bytes = cmdFrameBytes (decodeFrame t.bytes) ∨
   t.bytes = dataFrameBytes (decodeFrame t.bytes))

/-- Every transmission of the event is well-formed (delays impose nothing). -/
def goodEvent : Event → Prop
  | Event.transmit t => goodFrame t
  | Event.delay _ => True

instance (t : Transmission) : Decidable (goodFrame t) := by
  unfold goodFrame
  infer_instance

instance (e : Event) : Decidable (goodEvent e) :=
  match e with
  | Event.transmit t => inferInstanceAs (Decidable (goodFrame t))
  | Event.delay _ => inferInstanceAs (Decidable True)

/-! Helper lemmas. -/

set_option maxRecDepth 100000 in
lemma decode_cmdFrameBytes : ∀ b, b < 256 → decodeFrame (cmdFrameBytes b) = b := by decide

set_option maxRecDepth 100000 in
lemma decode_dataFrameBytes : ∀ b, b < 256 → decodeFrame (dataFrameBytes b) = b := by decide

lemma goodEvent_append {xs ys : List Event}
    (hx : ∀ e ∈ xs, goodEvent e) (hy : ∀ e ∈ ys, goodEvent e) :
    ∀ e ∈ xs ++ ys, goodEvent e := by
  intro e he
  rcases List.mem_append.mp he with h | h
  exacts [hx e h, hy e h]

lemma LCD_SEND_CMD_eq (cmd : Nat) :
    LCD_SEND_CMD cmd =
      [Event.transmit ⟨SLAVE_ADDRESS_LCD, cmdFrameBytes (cmd % 256), TIMEOUT⟩] := rfl

lemma LCD_SEND_DATA_eq (data : Nat) :
    LCD_SEND_DATA data =
      [Event.transmit ⟨SLAVE_ADDRESS_LCD, dataFrameBytes (data % 256), TIMEOUT⟩] := rfl

lemma goodEvent_send_cmd (cmd : Nat) : ∀ e ∈ LCD_SEND_CMD cmd, goodEvent e := by
  intro e he
  rw [LCD_SEND_CMD_eq, List.mem_singleton] at he
  subst he
  refine ⟨rfl, rfl, rfl, Or.inl ?_⟩
  rw [decode_cmdFrameBytes (cmd % 256) (Nat.mod_lt _ (by decide))]

lemma goodEvent_send_data (data : Nat) : ∀ e ∈ LCD_SEND_DATA data, goodEvent e := by
  intro e he
  rw [LCD_SEND_DATA_eq, List.mem_singleton] at he
  subst he
  refine ⟨rfl, rfl, rfl, Or.inr ?_⟩
  rw [decode_dataFrameBytes (data % 256) (Nat.mod_lt _ (by decide))]

lemma goodEvent_delay (d : Nat) : ∀ e ∈ [Event.delay d], goodEvent e := by
  intro e he
  rw [List.mem_singleton] at he
  subst he
  trivial

lemma goodEvent_clearLoop (n : Nat) : ∀ e ∈ clearLoopRun busOK n, goodEvent e := by
  induction n with
  | zero => intro e he; cases he
  | succ n ih => exact goodEvent_append (goodEvent_send_data 0x20) ih

lemma goodEvent_send_string (s : List Nat) : ∀ e ∈ LCD_SEND_STRING s, goodEvent e := by
  induction s with
  | nil => intro e he; cases he
  | cons c rest ih =>
    intro e he
    by_cases hc : c = 0
    · rw [show LCD_SEND_STRING (c :: rest) = (LCD_SEND_STRING_run busOK (c :: rest)).2 from rfl,
          LCD_SEND_STRING_run, if_pos hc] at he
      cases he
    · rw [show LCD_SEND_STRING (c :: rest) = (LCD_SEND_STRING_run busOK (c :: rest)).2 from rfl,
          LCD_SEND_STRING_run, if_neg hc] at he
      exact goodEvent_append (goodEvent_send_data c) ih e he

lemma LCD_SEND_STRING_cons (c : Nat) (rest : List Nat) (hc : c ≠ 0) :
    LCD_SEND_STRING (c :: rest) = LCD_SEND_DATA c ++ LCD_SEND_STRING rest := by
  simp only [LCD_SEND_STRING, LCD_SEND_STRING_run, if_neg hc]
  rfl

lemma sendString_run_eq (bus : Bus) (str : List Nat) :
    LCD_SEND_STRING_run bus str = ((), LCD_SEND_STRING str) := by
  induction str with
  | nil => rfl
  | cons c rest ih =>
    by_cases hc : c = 0
    · subst hc; rfl
    · have hs : (LCD_SEND_STRING_run bus rest).2 = LCD_SEND_STRING rest :=
        congrArg Prod.snd ih
      simp only [LCD_SEND_STRING_run, if_neg hc, LCD_SEND_STRING_cons c rest hc, hs]
      rfl

/-! Claims. -/

set_option maxRecDepth 1000000 in
/-- C1: for every byte b, LCD_SEND_CMD b produces exactly one 4-byte transmission whose
bytes are, in order, (b AND 0xF0) OR 0x0C, (b AND 0xF0) OR 0x08,
((b shl 4) AND 0xF0) OR 0x0C, ((b shl 4) AND 0xF0) OR 0x08; and LCD_SEND_DATA b
produces exactly one 4-byte transmission with control masks 0x0D and 0x09 instead. -/
theorem C1_send_cmd_data_frames :
    ∀ b, b < 256 →
      LCD_SEND_CMD b = [Event.transmit ⟨0x4E,
          [(b &&& 0xF0) ||| 0x0C, (b &&& 0xF0) ||| 0x08,
           ((b <<< 4) &&& 0xF0) ||| 0x0C, ((b <<< 4) &&& 0xF0) ||| 0x08], 100⟩] ∧
      LCD_SEND_DATA b = [Event.transmit ⟨0x4E,
          [(b &&& 0xF0) ||| 0x0D, (b &&& 0xF0) ||| 0x09,
           ((b <<< 4) &&& 0xF0) ||| 0x0D, ((b <<< 4) &&& 0xF0) ||| 0x09], 100⟩] := by
  decide

/-- C1 witness: the frame equations evaluated at the byte 0xAB. -/
theorem C1_send_cmd_data_frames_witness :
    LCD_SEND_CMD 0xAB = [Event.transmit ⟨0x4E,
        [(0xAB &&& 0xF0) ||| 0x0C, (0xAB &&& 0xF0) ||| 0x08,
         ((0xAB <<< 4) &&& 0xF0) ||| 0x0C, ((0xAB <<< 4) &&& 0xF0) ||| 0x08], 100⟩] ∧
    LCD_SEND_DATA 0xAB = [Event.transmit ⟨0x4E,
        [(0xAB &&& 0xF0) ||| 0x0D, (0xAB &&& 0xF0) ||| 0x09,
         ((0xAB <<< 4) &&& 0xF0) ||| 0x0D, ((0xAB <<< 4) &&& 0xF0) ||| 0x09], 100⟩] :=
  C1_send_cmd_data_frames 0xAB (by decide)

/-- C2 counterexample: on a bus where every transmission fails, LCD_SEND_CMD produces
exactly the same caller-visible result (the unit value, with the same single
transmission attempted) as on a bus where every transmission succeeds: the failure is
not reported to the caller in any way, refuting the claim that the operation
surfaces the bus error. -/
theorem C2_failure_not_surfaced :
    LCD_SEND_CMD_run busFAIL 0x28 = LCD_SEND_CMD_run busOK 0x28 ∧
    (LCD_SEND_CMD_run busFAIL 0x28).1 = () :=
  ⟨rfl, rfl⟩

/-- C2 amended: whatever status the bus collaborator reports, every driver operation
issues exactly the transmissions it issues on an all-success bus (so the failed
transmission is never retried), and returns the unit value (void): the HAL status is
discarded and no failure is ever reported to the caller. For the two primitives the
transmission count is exactly one. -/
theorem C2_no_retry_no_report : ∀ bus : Bus,
    (∀ cmd, LCD_SEND_CMD_run bus cmd = ((), LCD_SEND_CMD cmd) ∧
      (sentBytes (LCD_SEND_CMD_run bus cmd).2).length = 1) ∧
    (∀ data, LCD_SEND_DATA_run bus data = ((), LCD_SEND_DATA data) ∧
      (sentBytes (LCD_SEND_DATA_run bus data).2).length = 1) ∧
    LCD_CLEAR_run bus = ((), LCD_CLEAR) ∧
    (∀ row col, LCD_SET_CURSOR_run bus row col = ((), LCD_SET_CURSOR row col)) ∧
    LCD_INIT_run bus = ((), LCD_INIT) ∧
    (∀ str, LCD_SEND_STRING_run bus str = ((), LCD_SEND_STRING str)) ∧
    LCD_SCROLL_LEFT_run bus = ((), LCD_SCROLL_LEFT) ∧
    LCD_SCROLL_RIGHT_run bus = ((), LCD_SCROLL_RIGHT) := by
  intro bus
  exact ⟨fun cmd => ⟨rfl, rfl⟩, fun data => ⟨rfl, rfl⟩, rfl, fun row col => rfl, rfl,
    sendString_run_eq bus, rfl, rfl⟩

/-- C2 witness: the amended statement evaluated on the all-fail bus for LCD_CLEAR. -/
theorem C2_no_retry_no_report_witness :
    LCD_CLEAR_run busFAIL = ((), LCD_CLEAR) :=
  (C2_no_retry_no_report busFAIL).2.2.1

/-- C3: LCD_INIT emits exactly the command bytes 0x30, 0x30, 0x30, 0x20, 0x28, 0x08,
0x01, 0x06, 0x0C in exactly that order (nothing omitted, added or reordered), and
every wait in the sequence has a strictly positive duration. -/
theorem C3_init_command_sequence :
    payloadsOf LCD_INIT = [0x30, 0x30, 0x30, 0x20, 0x28, 0x08, 0x01, 0x06, 0x0C] ∧
    ∀ d ∈ delaysOf LCD_INIT, 0 < d := by
  decide

/-- C4: the delays of LCD_INIT, evaluated. The first delay - the power-on settle wait
before the first command - is DELAY_50MS, which the header defines as 40, not 50;
the waits after the three 8-bit-mode commands are 5, 1 and 10 as claimed. -/
theorem C4_init_delays :
    delaysOf LCD_INIT = [40, 5, 1, 10, 10, 1, 1, 1, 1, 1] ∧
    LCD_INIT.head? = some (Event.delay DELAY_50MS) ∧
    DELAY_50MS = 40 := by
  decide

/-- C5: LCD_CLEAR produces exactly 17 transmissions: one command frame carrying 0x80
(cursor to the start of row 1) followed by sixteen data frames carrying the space
character 0x20. -/
theorem C5_clear_trace :
    LCD_CLEAR = Event.transmit ⟨0x4E, [0x8C, 0x88, 0x0C, 0x08], 100⟩ ::
      List.replicate 16 (Event.transmit ⟨0x4E, [0x2D, 0x29, 0x0D, 0x09], 100⟩) ∧
    LCD_CLEAR.length = 17 ∧
    payloadsOf LCD_CLEAR = 0x80 :: List.replicate 16 0x20 := by
  decide

set_option maxRecDepth 1000000 in
/-- C6: for every byte-range column c, LCD_SET_CURSOR 0 c transmits exactly the single
command (c OR 0x80), LCD_SET_CURSOR 1 c transmits exactly the single command
(c OR 0xC0), and for every row other than 0 and 1 the column is left unmodified and
transmitted directly as the command. -/
theorem C6_set_cursor :
    (∀ c : Nat, c < 256 →
      LCD_SET_CURSOR 0 (c : Int) = LCD_SEND_CMD (c ||| 0x80) ∧
      LCD_SET_CURSOR 1 (c : Int) = LCD_SEND_CMD (c ||| 0xC0)) ∧
    (∀ (row : Int) (c : Nat), row ≠ 0 → row ≠ 1 → c < 256 →
      LCD_SET_CURSOR row (c : Int) = LCD_SEND_CMD c) := by
  constructor
  · decide
  · intro row c h0 h1 hc
    have hcc : (((c : Int)) % 256).toNat = c := by omega
    simp only [LCD_SET_CURSOR, LCD_SET_CURSOR_run, if_neg h0, if_neg h1, hcc]
    rfl

/-- C6 witness: the cursor equations evaluated at column 5 for rows 0 and 1 and at
the out-of-range row 2 with column 7. -/
theorem C6_set_cursor_witness :
    (LCD_SET_CURSOR 0 ((5 : Nat) : Int) = LCD_SEND_CMD (5 ||| 0x80) ∧
     LCD_SET_CURSOR 1 ((5 : Nat) : Int) = LCD_SEND_CMD (5 ||| 0xC0)) ∧
    LCD_SET_CURSOR 2 ((7 : Nat) : Int) = LCD_SEND_CMD 7 :=
  ⟨C6_set_cursor.1 5 (by decide),
   C6_set_cursor.2 2 7 (by decide) (by decide) (by decide)⟩

/-- C7: LCD_SEND_STRING sends one data transmission per character before the first
zero byte, in order, and does not transmit the zero byte or anything after it; in
particular the string AB produces exactly the two data transmissions 0x41 then 0x42. -/
theorem C7_send_string :
    (∀ s t : List Nat, 0 ∉ s →
      LCD_SEND_STRING (s ++ 0 :: t) = (s.map LCD_SEND_DATA).flatten) ∧
    LCD_SEND_STRING [0x41, 0x42, 0] = LCD_SEND_DATA 0x41 ++ LCD_SEND_DATA 0x42 := by
  constructor
  · intro s t
    induction s with
    | nil => intro _; rfl
    | cons c rest ih =>
      intro hs
      have hc : c ≠ 0 := fun h => hs (by rw [h]; exact List.mem_cons_self 0 rest)
      have hrest : (0 : Nat) ∉ rest := fun h => hs (List.mem_cons_of_mem c h)
      rw [List.cons_append, LCD_SEND_STRING_cons c _ hc, ih hrest, List.map_cons,
        List.flatten_cons]
  · decide

/-- C7 witness: the general statement evaluated at the string AB with empty tail. -/
theorem C7_send_string_witness :
    LCD_SEND_STRING ([0x41, 0x42] ++ 0 :: []) = ([0x41, 0x42].map LCD_SEND_DATA).flatten :=
  C7_send_string.1 [0x41, 0x42] [] (by decide)

/-- C8: LCD_SCROLL_LEFT transmits exactly one command frame carrying 0x18 and
LCD_SCROLL_RIGHT transmits exactly one command frame carrying 0x1C; both are
constants of the embedding, which, like the C driver, keeps no scroll state. -/
theorem C8_scroll_commands :
    LCD_SCROLL_LEFT = [Event.transmit ⟨0x4E, [0x1C, 0x18, 0x8C, 0x88], 100⟩] ∧
    payloadsOf LCD_SCROLL_LEFT = [LCD_MOVE_LEFT] ∧
    LCD_SCROLL_RIGHT = [Event.transmit ⟨0x4E, [0x1C, 0x18, 0xCC, 0xC8], 100⟩] ∧
    payloadsOf LCD_SCROLL_RIGHT = [LCD_MOVE_RIGHT] := by
  decide

set_option maxRecDepth 1000000 in
/-- C9: every transmission issued by any driver operation goes to the fixed device
address 0x4E with the fixed timeout, is exactly 4 bytes long, and is shaped
[upper nibble with EN=1, upper nibble with EN=0, lower nibble with EN=1,
lower nibble with EN=0] with a uniform RS setting. -/
theorem C9_all_transmissions_well_formed :
    (∀ cmd, ∀ e ∈ LCD_SEND_CMD cmd, goodEvent e) ∧
    (∀ data, ∀ e ∈ LCD_SEND_DATA data, goodEvent e) ∧
    (∀ e ∈ LCD_CLEAR, goodEvent e) ∧
    (∀ (row col : Int), ∀ e ∈ LCD_SET_CURSOR row col, goodEvent e) ∧
    (∀ e ∈ LCD_INIT, goodEvent e) ∧
    (∀ str, ∀ e ∈ LCD_SEND_STRING str, goodEvent e) ∧
    (∀ e ∈ LCD_SCROLL_LEFT, goodEvent e) ∧
    (∀ e ∈ LCD_SCROLL_RIGHT, goodEvent e) := by
  refine ⟨goodEvent_send_cmd, goodEvent_send_data, ?_, ?_, ?_, goodEvent_send_string,
    goodEvent_send_cmd LCD_MOVE_LEFT, goodEvent_send_cmd LCD_MOVE_RIGHT⟩
  · exact goodEvent_append (goodEvent_send_cmd LCD_CURSOR_ROW_FIRST)
      (goodEvent_clearLoop LCD_CLEAR_ROW_LENGTH)
  · intro row col
    exact goodEvent_send_cmd _
  · decide

/-- C9 witness: well-formedness of the concrete first transmission of LCD_CLEAR. -/
theorem C9_all_transmissions_well_formed_witness :
    goodEvent (Event.transmit ⟨0x4E, [0x8C, 0x88, 0x0C, 0x08], 100⟩) :=
  C9_all_transmissions_well_formed.2.2.1 _ (by decide)

set_option maxRecDepth 1000000 in
/-- C10: for every input byte, in every byte of the frames built by LCD_SEND_CMD and
LCD_SEND_DATA the low 4 bits equal exactly the control mask of that slot (0x0C, 0x08,
0x0C, 0x08 for commands; 0x0D, 0x09, 0x0D, 0x09 for data) and the high 4 bits equal
exactly the payload nibble: payload and control bits never overlap. -/
theorem C10_nibble_separation :
    ∀ b, b < 256 →
      ((sentBytes (LCD_SEND_CMD b)).flatten.map (fun x => x &&& 0x0F) =
         [0x0C, 0x08, 0x0C, 0x08] ∧
       (sentBytes (LCD_SEND_CMD b)).flatten.map (fun x => x &&& 0xF0) =
         [b &&& 0xF0, b &&& 0xF0, (b <<< 4) &&& 0xF0, (b <<< 4) &&& 0xF0]) ∧
      ((sentBytes (LCD_SEND_DATA b)).flatten.map (fun x => x &&& 0x0F) =
         [0x0D, 0x09, 0x0D, 0x09] ∧
       (sentBytes (LCD_SEND_DATA b)).flatten.map (fun x => x &&& 0xF0) =
         [b &&& 0xF0, b &&& 0xF0, (b <<< 4) &&& 0xF0, (b <<< 4) &&& 0xF0]) := by
  decide

/-- C10 witness: the nibble separation evaluated at the byte 0x5A. -/
theorem C10_nibble_separation_witness :
    ((sentBytes (LCD_SEND_CMD 0x5A)).flatten.map (fun x => x &&& 0x0F) =
       [0x0C, 0x08, 0x0C, 0x08] ∧
     (sentBytes (LCD_SEND_CMD 0x5A)).flatten.map (fun x => x &&& 0xF0) =
       [0x5A &&& 0xF0, 0x5A &&& 0xF0, (0x5A <<< 4) &&& 0xF0, (0x5A <<< 4) &&& 0xF0]) ∧
    ((sentBytes (LCD_SEND_DATA 0x5A)).flatten.map (fun x => x &&& 0x0F) =
       [0x0D, 0x09, 0x0D, 0x09] ∧
     (sentBytes (LCD_SEND_DATA 0x5A)).flatten.map (fun x => x &&& 0xF0) =
       [0x5A &&& 0xF0, 0x5A &&& 0xF0, (0x5A <<< 4) &&& 0xF0, (0x5A <<< 4) &&& 0xF0]) :=
  C10_nibble_separation 0x5A (by decide)

/-- C3 witness: the command list evaluated, and positivity discharged at the
concrete delay duration 40, a member of the delay list. -/
theorem C3_init_command_sequence_witness :
    payloadsOf LCD_INIT = [0x30, 0x30, 0x30, 0x20, 0x28, 0x08, 0x01, 0x06, 0x0C] ∧
    0 < 40 :=
  ⟨C3_init_command_sequence.1, C3_init_command_sequence.2 40 (by decide)⟩
